import Mathlib

/-!
Shallow embedding of the balloon-annotation core of the REPLIT-FAI repository:
the fuzzy text matcher, the zone calculator, the leader-offset calculator, the
smart balloon placer with its perimeter fallback, and the annotation-generation
phase.  JS numbers are modelled as exact rationals; square-root comparisons
(Math.hypot) are modelled by the equivalent squared comparisons; JS values that
can be non-finite at the points the code inspects them are modelled by small
inductive types (JVal, JNum) carrying the infinities and NaN explicitly.
-/

namespace FAI

/-- JS Math.floor on an exact rational, computed by floor division of the
numerator by the denominator (kept executable; see jsFloor_eq_floor). -/
def jsFloor (q : ℚ) : ℤ := Int.fdiv q.num q.den

/-- JS Math.ceil on an exact rational. -/
def jsCeil (q : ℚ) : ℤ := -(jsFloor (-q))

/-- Models the JS comparison Math.hypot dx dy < m without square roots: for
m positive it is dx^2 + dy^2 < m^2, and for m nonpositive it is false since
a hypotenuse is nonnegative. -/
def hypotLt (dx dy m : ℚ) : Bool := decide (0 < m) && decide (dx ^ 2 + dy ^ 2 < m ^ 2)

/-- Decimal digit character. -/
def digitChar (d : ℕ) : Char := Char.ofNat (48 + d)

/-- Digits of a natural number, least significant first. -/
def natDigitsRev (n : ℕ) : List ℕ :=
  if n < 10 then [n] else (n % 10) :: natDigitsRev (n / 10)
termination_by n
decreasing_by exact Nat.div_lt_self (by omega) (by omega)

/-- Decimal string of a natural number, as JS renders integral numbers. -/
def natStr (n : ℕ) : String := String.mk ((natDigitsRev n).reverse.map digitChar)

/-- Decimal string of an integer, as JS renders integral numbers. -/
def intStr (n : ℤ) : String := if n < 0 then "-" ++ natStr n.natAbs else natStr n.natAbs

/-- Fixed-point decimal rendering of a nonnegative rational with k1 fractional
digits (the final digits come from truncating the scaled numerator). -/
def decimalWithFrac (q : ℚ) (k1 : ℕ) : String :=
  let v := (q * (10 : ℚ) ^ k1).num.toNat
  let ds := (natDigitsRev v).reverse.map digitChar
  let padded := List.replicate (k1 + 1 - ds.length) '0' ++ ds
  String.mk (padded.take (padded.length - k1)) ++ "." ++
    String.mk (padded.drop (padded.length - k1))

/-- Decimal rendering of a nonnegative JS number: integral values print with no
point, other values print the shortest terminating decimal expansion.  Values
whose expansion does not terminate within 17 digits are truncated there; such
values never arise from the repository (floats interpolated by the code have
short terminating expansions). -/
def natDecimalStr (q : ℚ) : String :=
  if q.den = 1 then natStr q.num.toNat
  else
    match (List.range 17).find? (fun k => (q * (10 : ℚ) ^ (k + 1)).den = 1) with
    | some k => decimalWithFrac q (k + 1)
    | none => decimalWithFrac q 17

/-- Decimal rendering of a JS number as interpolated by a template literal. -/
def numToString (q : ℚ) : String :=
  if q < 0 then "-" ++ natDecimalStr (-q) else natDecimalStr q

/-! ### Text normalization (cleanText in textMatcher) -/

/-- Unicode lowercasing as used by String.prototype.toLowerCase, modelled on the
alphabet relevant to the matcher: ASCII letters and the kept symbol Ø (which
lowercases to ø and is then dropped by the character filter, as in JS); other
characters are left unchanged (exotic Unicode case mappings are out of the
modelled alphabet). -/
def jsToLower (c : Char) : Char := if c = 'Ø' then 'ø' else c.toLower

/-- JS regex whitespace class members relevant here. -/
def isJsSpace (c : Char) : Bool :=
  c = ' ' || c = '\t' || c = '\n' || c = '\r' || c = '\x0b' || c = '\x0c'

/-- Collapses adjacent spaces to one (second phase of replacing the regex
whitespace-run class by a single space). -/
def squashSpaces : List Char → List Char
  | [] => []
  | [c] => [c]
  | a :: b :: rest =>
    if a = ' ' ∧ b = ' ' then squashSpaces (b :: rest) else a :: squashSpaces (b :: rest)

/-- The replace of whitespace runs with a single space. -/
def collapseWs (l : List Char) : List Char :=
  squashSpaces (l.map (fun c => if isJsSpace c then ' ' else c))

/-- JS regex word class: ASCII alphanumerics and underscore. -/
def isWordChar (c : Char) : Bool :=
  ('a' ≤ c && c ≤ 'z') || ('A' ≤ c && c ≤ 'Z') || ('0' ≤ c && c ≤ '9') || c = '_'

/-- Characters kept by the cleanText filter: word characters, whitespace, and
the symbols period, plus-minus, degree, Ø and the empty-set diameter sign. -/
def keptChar (c : Char) : Bool :=
  isWordChar c || isJsSpace c || c = '.' || c = '±' || c = '°' || c = 'Ø' || c = '∅'

/-- JS String.prototype.trim on the modelled whitespace. -/
def trimWs (l : List Char) : List Char :=
  ((l.dropWhile isJsSpace).reverse.dropWhile isJsSpace).reverse

/-- cleanText from textMatcher: lowercase, collapse whitespace runs to one
space, strip characters outside the kept set, trim. -/
def cleanText (s : String) : List Char :=
  trimWs ((collapseWs (s.toList.map jsToLower)).filter keptChar)

/-- Whether the second list is a prefix of the first. -/
def listStartsWith : List Char → List Char → Bool
  | _, [] => true
  | [], _ :: _ => false
  | a :: as, b :: bs => a == b && listStartsWith as bs

/-- JS String.prototype.includes: the needle occurs contiguously in the
haystack (every string includes the empty string). -/
def strIncludes (hay needle : List Char) : Bool :=
  match hay with
  | [] => listStartsWith [] needle
  | c :: t => listStartsWith (c :: t) needle || strIncludes t needle

/-- Classic insert/delete/substitute cost-1 edit distance; the source fills the
same recurrence bottom-up in a dynamic-programming matrix. -/
def levenshteinDistance : List Char → List Char → ℕ
  | [], ys => ys.length
  | x :: xs, [] => (x :: xs).length
  | x :: xs, y :: ys =>
    if x = y then levenshteinDistance xs ys
    else 1 + min (levenshteinDistance xs ys)
      (min (levenshteinDistance (x :: xs) ys) (levenshteinDistance xs (y :: ys)))
termination_by xs ys => xs.length + ys.length
decreasing_by
  all_goals simp only [List.length_cons]
  all_goals omega

/-- calculateSimilarity from textMatcher: normalized Levenshtein similarity,
1 when the longer string is empty. -/
def calculateSimilarity (str1 str2 : List Char) : ℚ :=
  let longer := if str1.length > str2.length then str1 else str2
  let shorter := if str1.length > str2.length then str2 else str1
  if longer.length = 0 then 1
  else ((longer.length : ℚ) - levenshteinDistance longer shorter) / (longer.length : ℚ)

/-! ### JS number values produced by the similarity arithmetic -/

/-- JS number values arising in the matcher: a finite rational, positive
Infinity (a positive length divided by a zero length), or NaN (zero divided by
zero). -/
inductive JVal where
  | fin : ℚ → JVal
  | inf : JVal
  | nan : JVal
deriving DecidableEq

/-- JS division of two lengths, keeping the JS behaviour at a zero
denominator. -/
def jdivLen (a b : ℕ) : JVal :=
  if b = 0 then (if a = 0 then .nan else .inf) else .fin ((a : ℚ) / (b : ℚ))

/-- JS Math.max on the modelled values (NaN propagates). -/
def jmax : JVal → JVal → JVal
  | .nan, _ => .nan
  | _, .nan => .nan
  | .inf, _ => .inf
  | _, .inf => .inf
  | .fin a, .fin b => .fin (max a b)

/-- JS strict greater-than (false whenever NaN is involved). -/
def jgt : JVal → JVal → Bool
  | .fin a, .fin b => decide (b < a)
  | .inf, .fin _ => true
  | _, _ => false

/-- JS greater-or-equal (false whenever NaN is involved). -/
def jge : JVal → JVal → Bool
  | .fin a, .fin b => decide (b ≤ a)
  | .inf, .fin _ => true
  | .inf, .inf => true
  | _, _ => false

/-! ### The text matcher -/

/-- A text item extracted from the PDF (absolute points, top-left origin). -/
structure PDFTextItem where
  text : String
  x : ℚ
  y : ℚ
  width : ℚ
  height : ℚ
deriving DecidableEq

/-- Per-page text items with the page size (1-indexed page number). -/
structure PDFPageInfo where
  pageNumber : ℤ
  width : ℚ
  height : ℚ
  textItems : List PDFTextItem
deriving DecidableEq

/-- The ephemeral match result of the text matcher (page is 0-indexed). -/
structure TextMatch where
  text : String
  page : ℤ
  x : ℚ
  y : ℚ
  width : ℚ
  height : ℚ
  confidence : JVal
deriving DecidableEq

/-- One iteration of the inner item loop of findTextPosition: an exact match
after cleaning returns immediately (left injection); otherwise the
best-so-far state (match and similarity) is threaded through the substring
test and the fuzzy test. -/
def scanTextItem (cleanSearch : List Char) (minConfidence : ℚ) (pageNumber : ℤ)
    (item : PDFTextItem) (best : Option TextMatch) (bestSim : JVal) :
    TextMatch ⊕ (Option TextMatch × JVal) :=
  let cleanItem := cleanText item.text
  if cleanItem == cleanSearch then
    .inl ⟨item.text, pageNumber - 1, item.x, item.y, item.width, item.height, .fin 1⟩
  else
    let st1 :=
      if strIncludes cleanItem cleanSearch || strIncludes cleanSearch cleanItem then
        let similarity := jmax (jdivLen cleanSearch.length cleanItem.length)
          (jdivLen cleanItem.length cleanSearch.length)
        if jgt similarity bestSim && jge similarity (.fin minConfidence) then
          (some (⟨item.text, pageNumber - 1, item.x, item.y, item.width, item.height,
            similarity⟩ : TextMatch), similarity)
        else (best, bestSim)
      else (best, bestSim)
    let similarity2 := JVal.fin (calculateSimilarity cleanSearch cleanItem)
    if jgt similarity2 st1.2 && jge similarity2 (.fin minConfidence) then
      .inr (some ⟨item.text, pageNumber - 1, item.x, item.y, item.width, item.height,
        similarity2⟩, similarity2)
    else .inr st1

/-- The item loop of findTextPosition over one page. -/
def scanTextItems (cleanSearch : List Char) (minConfidence : ℚ) (pageNumber : ℤ) :
    List PDFTextItem → Option TextMatch → JVal → TextMatch ⊕ (Option TextMatch × JVal)
  | [], best, bestSim => .inr (best, bestSim)
  | item :: rest, best, bestSim =>
    match scanTextItem cleanSearch minConfidence pageNumber item best bestSim with
    | .inl m => .inl m
    | .inr st => scanTextItems cleanSearch minConfidence pageNumber rest st.1 st.2

/-- The page loop of findTextPosition. -/
def scanPages (cleanSearch : List Char) (minConfidence : ℚ) :
    List PDFPageInfo → Option TextMatch → JVal → Option TextMatch
  | [], best, _ => best
  | pg :: rest, best, bestSim =>
    match scanTextItems cleanSearch minConfidence pg.pageNumber pg.textItems best bestSim with
    | .inl m => some m
    | .inr st => scanPages cleanSearch minConfidence rest st.1 st.2

/-- findTextPosition from textMatcher: scans pages in order, items in order,
returning immediately on an exact cleaned match and otherwise tracking a single
best-so-far match across the whole index. -/
def findTextPosition (searchText : String) (pdfPages : List PDFPageInfo)
    (minConfidence : ℚ) : Option TextMatch :=
  scanPages (cleanText searchText) minConfidence pdfPages none (.fin 0)

/-- findDimensionPosition from textMatcher: candidate query strings built from
the nominal value and tolerances (each guarded by the JS truthiness tests of the
source: the nominal pattern group needs a defined nonzero nominal, and the
tolerance patterns additionally need both tolerances truthy), then the
description, each tried through findTextPosition at threshold 0.6, first
success wins.  The unit parameter is accepted and unused, as in the source. -/
def findDimensionPosition (description : String)
    (nominalValue tolerancePlus toleranceMinus : Option ℚ)
    (unit : Option String) (pdfPages : List PDFPageInfo) : Option TextMatch :=
  let searchPatterns : List String :=
    (match nominalValue with
     | some n =>
       if n ≠ 0 then
         (match tolerancePlus, toleranceMinus with
          | some tp, some tm =>
            if tp ≠ 0 ∧ tm ≠ 0 then
              [numToString n ++ " ±" ++ numToString tp,
               numToString n ++ "±" ++ numToString tp,
               numToString n ++ " +" ++ numToString tp ++ " -" ++ numToString tm]
            else []
          | _, _ => []) ++ [numToString n]
       else []
     | none => []) ++ [description]
  searchPatterns.findSome? (fun p => findTextPosition p pdfPages (0.6 : ℚ))

/-- JS truthiness of an optional string (undefined and the empty string are
falsy). -/
def gdtTruthy : Option String → Bool
  | some s => !(s == "")
  | none => false

/-- findGDTPosition from textMatcher: the gdt symbol text (when truthy), then
the description, each at threshold 0.7, first success wins. -/
def findGDTPosition (description : String) (gdtType : Option String)
    (pdfPages : List PDFPageInfo) : Option TextMatch :=
  let searchPatterns : List String :=
    (match gdtType with
     | some g => if g = "" then [] else [g]
     | none => []) ++ [description]
  searchPatterns.findSome? (fun p => findTextPosition p pdfPages (0.7 : ℚ))

/-- findNotePosition from textMatcher: the description at threshold 0.8. -/
def findNotePosition (description : String) (pdfPages : List PDFPageInfo) : Option TextMatch :=
  findTextPosition description pdfPages (0.8 : ℚ)

/-! ### Zone calculation -/

/-- JS doubles at the page-dimension validation: a finite rational, either
infinity, or NaN. -/
inductive JNum where
  | fin : ℚ → JNum
  | posInf : JNum
  | negInf : JNum
  | nan : JNum
deriving DecidableEq

/-- Number.isFinite. -/
def JNum.isFinite : JNum → Bool
  | .fin _ => true
  | _ => false

/-- JS comparison v <= 0 (false for NaN). -/
def JNum.nonpos : JNum → Bool
  | .fin q => decide (q ≤ 0)
  | .negInf => true
  | _ => false

/-- The defensive validation of calculateDrawingZone. -/
def zoneDimsInvalid (pageWidth pageHeight : JNum) : Bool :=
  !pageWidth.isFinite || pageWidth.nonpos || !pageHeight.isFinite || pageHeight.nonpos

/-- The column labels of the standard 8-column grid. -/
def zoneColumns : List String := ["A", "B", "C", "D", "E", "F", "G", "H"]

/-- Column index of calculateDrawingZone: Math.min(Math.floor(x / columnWidth),
7) where columnWidth is an eighth of the page width.  There is no lower clamp. -/
def zoneColumnIndex (x pageWidth : ℚ) : ℤ :=
  min (jsFloor (x / (pageWidth / 8))) 7

/-- Row index of calculateDrawingZone: Math.min(Math.floor((pageHeight - y) /
rowHeight), 7).  There is no lower clamp. -/
def zoneRowIndex (y pageHeight : ℚ) : ℤ :=
  min (jsFloor ((pageHeight - y) / (pageHeight / 8))) 7

/-- JS array read zoneColumns[i] interpolated into a template literal: an
out-of-range index reads undefined, which the template renders as the string
undefined. -/
def zoneColumnStr (i : ℤ) : String :=
  if i < 0 then "undefined" else zoneColumns.getD i.toNat "undefined"

/-- calculateDrawingZone: validates the page dimensions (throwing on any
dimension that is not a finite positive number), then forms the column letter
and the 1-based bottom-to-top row number. -/
def calculateDrawingZone (x y : ℚ) (pageWidth pageHeight : JNum) : Except String String :=
  if zoneDimsInvalid pageWidth pageHeight then
    .error "Invalid page dimensions for zone calculation"
  else
    match pageWidth, pageHeight with
    | .fin w, .fin h =>
      let columnIndex := zoneColumnIndex x w
      let column := zoneColumnStr columnIndex
      let rowIndex := zoneRowIndex y h
      let row := rowIndex + 1
      .ok (column ++ "-" ++ intStr row)
    | _, _ => .error "Invalid page dimensions for zone calculation"

/-- The 64 zone codes A-1 through H-8. -/
def zoneCodes : List String :=
  zoneColumns.flatMap (fun c => (List.range 8).map (fun r => c ++ "-" ++ natStr (r + 1)))

/-! ### Leader offsets -/

/-- Horizontal leader hint. -/
inductive HorizDir where
  | left : HorizDir
  | right : HorizDir
deriving DecidableEq

/-- Vertical leader hint. -/
inductive VertDir where
  | up : VertDir
  | down : VertDir
deriving DecidableEq

/-- The optional direction argument of computeLeaderOffset, with optional
horizontal and vertical hints. -/
structure LeaderDirection where
  horizontal : Option HorizDir
  vertical : Option VertDir
deriving DecidableEq

/-- The offset-growing safety loop of computeLeaderOffset: while the distance
(the hypotenuse of the two offsets) is below the minimum of 5, grow the
offsets by (10, 5). -/
def growOffsets (h v : ℚ) : ℚ × ℚ :=
  if h ^ 2 + v ^ 2 < 25 then growOffsets (h + 10) (v + 5) else (h, v)
termination_by (⌈(5 - h) / 10⌉).toNat
decreasing_by
  rename_i hlt
  have h5 : h < 5 := by nlinarith [sq_nonneg v, sq_nonneg h]
  have hpos : (0 : ℤ) < ⌈(5 - h) / 10⌉ := Int.ceil_pos.mpr (by linarith)
  have hstep : (5 - (h + 10)) / 10 = (5 - h) / 10 - 1 := by ring
  rw [hstep, Int.ceil_sub_one]
  omega

/-- computeLeaderOffset: picks a quadrant from the optional hints (default
right and down) starting at offsets (30, 15), growing via the safety loop
until the leader point is at distance at least 5 from the balloon. -/
def computeLeaderOffset (xPosition yPosition : ℚ)
    (direction : Option LeaderDirection) : ℚ × ℚ :=
  let horizontalDir := (direction.bind (fun d => d.horizontal)).getD .right
  let verticalDir := (direction.bind (fun d => d.vertical)).getD .down
  let hv := growOffsets 30 15
  let leaderX := xPosition + (match horizontalDir with
    | .right => hv.1
    | .left => -hv.1)
  let leaderY := yPosition + (match verticalDir with
    | .down => hv.2
    | .up => -hv.2)
  (leaderX, leaderY)

/-! ### Balloon placement -/

/-- calculateBalloonSize: balloon diameter as a step function of the total
characteristic count. -/
def calculateBalloonSize (totalCharacteristics : ℤ) : ℚ :=
  if totalCharacteristics ≤ 20 then 24
  else if totalCharacteristics ≤ 40 then 20
  else if totalCharacteristics ≤ 60 then 18
  else if totalCharacteristics ≤ 80 then 16
  else 14

/-- An already-placed balloon as fed back into the placer. -/
structure PlacedBalloon where
  xPosition : ℚ
  yPosition : ℚ
  balloonDiameter : ℚ
deriving DecidableEq

/-- An axis-aligned box: the target text position and the text items fed to
the collision tests. -/
structure TextBox where
  x : ℚ
  y : ℚ
  width : ℚ
  height : ℚ
deriving DecidableEq

/-- Which side of the text the balloon sits on. -/
inductive Side where
  | left : Side
  | right : Side
deriving DecidableEq

/-- The result of the placer. -/
structure Placement where
  xPosition : ℚ
  yPosition : ℚ
  side : Side
  balloonDiameter : ℚ
deriving DecidableEq

/-- The result of the perimeter fallback layout. -/
structure PerimeterPos where
  xPosition : ℚ
  yPosition : ℚ
  side : Side
deriving DecidableEq

/-- The drawing boundaries excluding borders and the title block. -/
structure DrawingBounds where
  left : ℚ
  right : ℚ
  top : ℚ
  bottom : ℚ
deriving DecidableEq

/-- drawingBounds of computeSmartBalloonPlacement: a border margin of 60 inside
the drawing origin and page edges, plus a 120 title-block reservation at the
bottom. -/
def drawingBoundsOf (drawingOrigin : ℚ × ℚ) (pageWidth pageHeight : ℚ) : DrawingBounds :=
  ⟨drawingOrigin.1 + 60, pageWidth - 60, drawingOrigin.2 + 60, pageHeight - 120 - 60⟩

/-- isBlankSpace of computeSmartBalloonPlacement: the balloon circle must stay
inside the drawing bounds and the 30-point page margin, keep a 5-point buffer
beyond touching from every placed balloon, and clear every text box expanded
by 5 (circle-to-rectangle distance via the clamped closest point). -/
def isBlankSpace (balloonDiameter pageWidth pageHeight : ℚ) (bounds : DrawingBounds)
    (existingBalloons : List PlacedBalloon) (allTextItems : List TextBox)
    (x y : ℚ) : Bool :=
  let radius := balloonDiameter / 2
  if x - radius < bounds.left ∨ x + radius > bounds.right ∨
      y - radius < bounds.top ∨ y + radius > bounds.bottom then false
  else if x - radius < 30 ∨ x + radius > pageWidth - 30 ∨
      y - radius < 30 ∨ y + radius > pageHeight - 30 then false
  else if existingBalloons.any (fun e =>
      hypotLt (x - e.xPosition) (y - e.yPosition)
        (radius + e.balloonDiameter / 2 + 5)) then false
  else if allTextItems.any (fun t =>
      let textLeft := t.x - 5
      let textRight := t.x + t.width + 5
      let textTop := t.y - 5
      let textBottom := t.y + t.height + 5
      let closestX := max textLeft (min x textRight)
      let closestY := max textTop (min y textBottom)
      hypotLt (x - closestX) (y - closestY) radius) then false
  else true

/-- isLeaderPathClear of computeSmartBalloonPlacement: the straight segment
from the balloon to the target must pass no closer than the other balloon
radius plus 3 to any placed balloon (point-to-segment distance via the
projection parameter clamped to the unit interval; a zero-length segment is
skipped). -/
def isLeaderPathClear (existingBalloons : List PlacedBalloon)
    (balloonX balloonY targetX targetY : ℚ) : Bool :=
  existingBalloons.all (fun e =>
    let existingRadius := e.balloonDiameter / 2
    let lineLen2 := (targetX - balloonX) ^ 2 + (targetY - balloonY) ^ 2
    if lineLen2 = 0 then true
    else
      let t := max 0 (min 1
        (((e.xPosition - balloonX) * (targetX - balloonX) +
          (e.yPosition - balloonY) * (targetY - balloonY)) / lineLen2))
      let projX := balloonX + t * (targetX - balloonX)
      let projY := balloonY + t * (targetY - balloonY)
      !(hypotLt (e.xPosition - projX) (e.yPosition - projY) (existingRadius + 3)))

/-- A candidate balloon position. -/
structure Candidate where
  x : ℚ
  y : ℚ
  side : Side
deriving DecidableEq

/-- The 12 fixed candidate offsets of computeSmartBalloonPlacement in priority
order: right preferred and minimum, left preferred and minimum, above and
below (each preferred and minimum, shifted right by 10), then the four
diagonal variants (the preferred offsets shifted 20 up or down). -/
def smartCandidates (tp : TextBox) : List Candidate :=
  let centerY := tp.y + tp.height / 2
  let centerX := tp.x + tp.width / 2
  [⟨tp.x + tp.width + 35, centerY, .right⟩,
   ⟨tp.x + tp.width + 15, centerY, .right⟩,
   ⟨tp.x - 35, centerY, .left⟩,
   ⟨tp.x - 15, centerY, .left⟩,
   ⟨centerX + 10, tp.y - 35, .right⟩,
   ⟨centerX + 10, tp.y - 15, .right⟩,
   ⟨centerX + 10, tp.y + tp.height + 35, .right⟩,
   ⟨centerX + 10, tp.y + tp.height + 15, .right⟩,
   ⟨tp.x + tp.width + 35, centerY - 20, .right⟩,
   ⟨tp.x + tp.width + 35, centerY + 20, .right⟩,
   ⟨tp.x - 35, centerY - 20, .left⟩,
   ⟨tp.x - 35, centerY + 20, .left⟩]

/-- The dual blank-space and leader-clearance test a candidate position must
pass. -/
def candidatePasses (balloonDiameter pageWidth pageHeight : ℚ) (bounds : DrawingBounds)
    (existingBalloons : List PlacedBalloon) (allTextItems : List TextBox)
    (textCenterX textCenterY x y : ℚ) : Bool :=
  isBlankSpace balloonDiameter pageWidth pageHeight bounds existingBalloons allTextItems x y &&
    isLeaderPathClear existingBalloons x y textCenterX textCenterY

/-- The vertical perturbations tried by the fallback adjustment loop (the zero
offset was already tried by the first pass and is skipped). -/
def perturbOffsets : List ℚ := [10, 20, 30, 40, 50, 60, 70, 80, 90, 100]

/-- The fallback adjustment for one candidate: probe each vertical perturbation
downward then upward, keeping the candidate x unchanged, and return the first
position passing the dual test. -/
def perturbCandidate (pass : ℚ → ℚ → Bool) (balloonDiameter : ℚ) (c : Candidate) :
    Option Placement :=
  perturbOffsets.findSome? (fun offsetY =>
    if pass c.x (c.y + offsetY) then some ⟨c.x, c.y + offsetY, c.side, balloonDiameter⟩
    else if pass c.x (c.y - offsetY) then some ⟨c.x, c.y - offsetY, c.side, balloonDiameter⟩
    else none)

/-- computePerimeterBalloonLayout: the deterministic perimeter fallback.  Two
side columns, or four columns when the total exceeds twice the single-column
capacity at minimum spacing; vertical spacing between 25 and 35 chosen to fit
the available height; y clamped to the page bounds.  Note it never consults
the already-placed balloons. -/
def computePerimeterBalloonLayout (balloonNumber totalBalloons : ℤ)
    (pageWidth pageHeight : ℚ) : PerimeterPos :=
  let availableHeight := pageHeight - 120 - 80
  let maxBalloonsPerColumn := jsFloor (availableHeight / 25) + 1
  let numColumns : ℤ := if totalBalloons > maxBalloonsPerColumn * 2 then 4 else 2
  let balloonsPerColumn := jsCeil ((totalBalloons : ℚ) / (numColumns : ℚ))
  -- JS % is the truncated remainder (sign of the dividend), Int.tmod
  let columnNumber := Int.tmod (balloonNumber - 1) numColumns
  let columnIndex := jsFloor (((balloonNumber : ℚ) - 1) / (numColumns : ℚ))
  let balloonSpacing : ℚ :=
    if balloonsPerColumn > 1 then
      max 25 (min 35 (availableHeight / ((balloonsPerColumn : ℚ) - 1)))
    else 35
  let xs : ℚ × Side :=
    if numColumns = 2 then
      if columnNumber = 0 then (40, .left) else (pageWidth - 40, .right)
    else
      let columnPositions : List ℚ :=
        [40, pageWidth * 0.25, pageWidth * 0.75, pageWidth - 40]
      -- the JS read is in range for every balloonNumber >= 1; the default is
      -- never taken there (JS would read undefined for other inputs)
      (columnPositions.getD columnNumber.toNat 0,
       if columnNumber < 2 then .left else .right)
  let yPosition := 120 + (columnIndex : ℚ) * balloonSpacing
  let clampedY := min yPosition (pageHeight - 80)
  ⟨xs.1, clampedY, xs.2⟩

/-- computeSmartBalloonPlacement: with a target, return the first of the 12
candidates passing both tests, else the first vertically perturbed candidate
passing both, else the perimeter fallback; with no target, the perimeter
fallback directly.  The diameter always comes from calculateBalloonSize. -/
def computeSmartBalloonPlacement (textPosition : Option TextBox) (balloonNumber : ℤ)
    (pageWidth pageHeight : ℚ) (existingBalloons : List PlacedBalloon)
    (totalCharacteristics : ℤ) (allTextItems : List TextBox)
    (drawingOrigin : ℚ × ℚ) : Placement :=
  let d := calculateBalloonSize totalCharacteristics
  let bounds := drawingBoundsOf drawingOrigin pageWidth pageHeight
  match textPosition with
  | some tp =>
    let textCenterX := tp.x + tp.width / 2
    let textCenterY := tp.y + tp.height / 2
    match (smartCandidates tp).find? (fun c =>
        candidatePasses d pageWidth pageHeight bounds existingBalloons allTextItems
          textCenterX textCenterY c.x c.y) with
    | some c => ⟨c.x, c.y, c.side, d⟩
    | none =>
      match (smartCandidates tp).findSome? (perturbCandidate
          (candidatePasses d pageWidth pageHeight bounds existingBalloons allTextItems
            textCenterX textCenterY) d) with
      | some pl => pl
      | none =>
        let p := computePerimeterBalloonLayout balloonNumber totalCharacteristics
          pageWidth pageHeight
        ⟨p.xPosition, p.yPosition, p.side, d⟩
  | none =>
    let p := computePerimeterBalloonLayout balloonNumber totalCharacteristics
      pageWidth pageHeight
    ⟨p.xPosition, p.yPosition, p.side, d⟩

/-! ### The annotation-generation phase -/

/-- The normalized location written into a characteristic after persistence. -/
structure LocationData where
  x : ℚ
  y : ℚ
  width : ℚ
  height : ℚ
  page : ℤ
  confidence : JVal
deriving DecidableEq

/-- An extracted characteristic as the phase sees it. -/
structure ExtractedCharacteristic where
  requirementType : String
  description : String
  nominalValue : Option ℚ
  tolerancePlus : Option ℚ
  toleranceMinus : Option ℚ
  unit : Option String
  gdtType : Option String
  location : Option LocationData
deriving DecidableEq

/-- A pending annotation record of the batch insert. -/
structure AnnotationRecord where
  drawingId : String
  extractionKey : String
  page : ℤ
  annotationType : String
  x : ℚ
  y : ℚ
  width : ℚ
  height : ℚ
  textSnippet : String
  aiConfidence : JVal
  status : String
deriving DecidableEq

/-- The structured result of the phase.  An absent errors array is modelled by
the empty list. -/
structure AnnotationGenerationResult where
  success : Bool
  annotatedPdfUrl : Option String
  annotationCount : ℕ
  matchedCount : ℕ
  errors : List String
deriving DecidableEq

/-- The tiered acceptance thresholds, with the 0.7 default of the source for
an unknown requirement type. -/
def confidenceThreshold (requirementType : String) : ℚ :=
  if requirementType = "note" then 0.8
  else if requirementType = "material" then 0.8
  else if requirementType = "process" then 0.8
  else if requirementType = "dimension" then 0.55
  else if requirementType = "gdt" then 0.55
  else if requirementType = "functional" then 0.7
  else 0.7

/-- The matcher dispatch of the phase: dimensions without a gdt symbol go to
the dimension matcher, anything with a truthy gdt symbol to the gdt matcher,
everything else to the note matcher. -/
def matchCharacteristic (char : ExtractedCharacteristic)
    (pdfPages : List PDFPageInfo) : Option TextMatch :=
  if char.requirementType = "dimension" ∧ ¬ (gdtTruthy char.gdtType = true) then
    findDimensionPosition char.description char.nominalValue char.tolerancePlus
      char.toleranceMinus char.unit pdfPages
  else if gdtTruthy char.gdtType then
    findGDTPosition char.description char.gdtType pdfPages
  else
    findNotePosition char.description pdfPages

/-- The mapping of a characteristic to its annotation type string. -/
def annotationTypeOf (char : ExtractedCharacteristic) : String :=
  if gdtTruthy char.gdtType then "gdt"
  else if char.requirementType = "material" then "material"
  else if char.requirementType = "process" then "process"
  else if char.requirementType = "note" then "note"
  else if char.requirementType = "functional" then "functional_test"
  else "dimension"

/-- The matching loop (step 2): run each characteristic through its matcher and
accept the match when its confidence meets the acceptance threshold, holding
the accepted matches in a temporary list keyed by the characteristic index
(its stable extraction key); characteristics are not mutated here. -/
def acceptedMatches (characteristics : List ExtractedCharacteristic)
    (pdfPages : List PDFPageInfo) : List (ℕ × ExtractedCharacteristic × TextMatch) :=
  characteristics.enum.filterMap (fun p =>
    match matchCharacteristic p.2 pdfPages with
    | some m =>
      if jge m.confidence (.fin (confidenceThreshold p.2.requirementType)) then
        some (p.1, p.2, m)
      else none
    | none => none)

/-- The pending annotation records built from the accepted matches (the
extraction key is the characteristic index rendered as a string). -/
def buildAnnotationRecords (drawingId : String)
    (accepted : List (ℕ × ExtractedCharacteristic × TextMatch)) : List AnnotationRecord :=
  accepted.map (fun t =>
    ⟨drawingId, natStr t.1, t.2.2.page, annotationTypeOf t.2.1, t.2.2.x, t.2.2.y,
     t.2.2.width, t.2.2.height, t.2.2.text, t.2.2.confidence, "ai_generated"⟩)

/-- Step 5: after the batch insert succeeded, write each accepted match into
its characteristic as a location normalized by the page dimensions, skipping a
match whose 1-indexed page is missing from the page list.  Out-of-range
normalized values are logged but kept by the source, so nothing is rejected
here. -/
def applyLocationData (pdfPages : List PDFPageInfo)
    (characteristics : List ExtractedCharacteristic)
    (accepted : List (ℕ × ExtractedCharacteristic × TextMatch)) :
    List ExtractedCharacteristic :=
  accepted.foldl (fun chars t =>
    match pdfPages.find? (fun p => p.pageNumber == t.2.2.page + 1) with
    | none => chars
    | some pageInfo =>
      chars.mapIdx (fun j c =>
        if j = t.1 then
          { c with location := some ⟨t.2.2.x / pageInfo.width, t.2.2.y / pageInfo.height,
              t.2.2.width / pageInfo.width, t.2.2.height / pageInfo.height,
              t.2.2.page, t.2.2.confidence⟩ }
        else c)) characteristics

/-- Steps 2 through 4 of generateAnnotations together with its outer catch, as
a pure function of the external-effect outcomes: dbInsert models the single
batch insert of the pending annotation records, pdfStep models the best-effort
annotated-PDF render, upload and drawing update (returning the URL).  The
phase returns the structured result together with the possibly
location-updated characteristics; an insert failure is rethrown, caught by the
outer catch and turned into the failure result, with the characteristics left
untouched. -/
def generateAnnotations (drawingId : String)
    (characteristics : List ExtractedCharacteristic)
    (pdfPages : List PDFPageInfo)
    (dbInsert : List AnnotationRecord → Except String Unit)
    (pdfStep : Except String String) :
    AnnotationGenerationResult × List ExtractedCharacteristic :=
  let accepted := acceptedMatches characteristics pdfPages
  let annotationRecords := buildAnnotationRecords drawingId accepted
  let matchedCount := accepted.length
  if annotationRecords.length > 0 then
    match dbInsert annotationRecords with
    | .error e =>
      (⟨false, none, 0, 0,
        ["Failed to persist annotation records: " ++ e,
         "Annotation generation failed: " ++ e]⟩, characteristics)
    | .ok _ =>
      let chars1 := applyLocationData pdfPages characteristics accepted
      match pdfStep with
      | .ok url =>
        (⟨true, some url, annotationRecords.length, matchedCount, []⟩, chars1)
      | .error e =>
        (⟨true, none, annotationRecords.length, matchedCount,
          ["Failed to generate/upload annotated PDF: " ++ e]⟩, chars1)
  else
    (⟨true, none, 0, matchedCount, []⟩, characteristics)

/-- Circle overlap: the distance between centers is below the sum of the
radii, stated on squares (both sides are nonnegative wherever it is used). -/
def circlesOverlap (x1 y1 r1 x2 y2 r2 : ℚ) : Prop :=
  (x1 - x2) ^ 2 + (y1 - y2) ^ 2 < (r1 + r2) ^ 2

/-- Modelled from the claim wording, for comparison against the source (the
claim asserts an unconditional five-candidate list): the dimension candidate
patterns tried in order at threshold 0.6, first success wins. -/
def findDimensionPositionClaimed (description : String) (n tp tm : ℚ)
    (pdfPages : List PDFPageInfo) : Option TextMatch :=
  [numToString n ++ " ±" ++ numToString tp,
   numToString n ++ "±" ++ numToString tp,
   numToString n ++ " +" ++ numToString tp ++ " -" ++ numToString tm,
   numToString n,
   description].findSome? (fun p => findTextPosition p pdfPages (0.6 : ℚ))

/-- A synthetic batch of 49 placed balloons on a grid, away from the left
margin. -/
def c1others : List PlacedBalloon :=
  (List.range 49).map (fun i =>
    ⟨150 + 30 * ((i % 10 : ℕ) : ℚ), 300 + 30 * ((i / 10 : ℕ) : ℚ), 18⟩)

/-- Fifty pre-placed balloons, the first sitting exactly at the perimeter slot
of balloon number 1. -/
def c1placedBalloons : List PlacedBalloon := ⟨40, 120, 18⟩ :: c1others

/-- One note characteristic whose description matches a page item exactly. -/
def c2chars : List ExtractedCharacteristic :=
  [⟨"note", "HELLO", none, none, none, none, none, none⟩]

/-- A single page holding the matching text item. -/
def c2pages : List PDFPageInfo := [⟨1, 600, 400, [⟨"hello", 100, 200, 40, 10⟩]⟩]

/-- A single page whose only item is the tolerance pattern of a zero nominal
value. -/
def c10pages : List PDFPageInfo := [⟨1, 600, 400, [⟨"0 ±0.1", 100, 200, 40, 10⟩]⟩]

/-- Decidable equality of Except values with decidable components. -/
instance {ε α : Type} [DecidableEq ε] [DecidableEq α] : DecidableEq (Except ε α) := fun a b =>
  match a, b with
  | .ok u, .ok v => decidable_of_iff (u = v) (by simp)
  | .error u, .error v => decidable_of_iff (u = v) (by simp)
  | .ok _, .error _ => isFalse (by simp)
  | .error _, .ok _ => isFalse (by simp)

/-! ### Bridge lemmas -/

theorem jsFloor_eq_floor (q : ℚ) : jsFloor q = ⌊q⌋ := by
  rw [Rat.floor_def, jsFloor]
  exact Int.fdiv_eq_ediv _ (Int.ofNat_nonneg _)

theorem jsCeil_eq_ceil (q : ℚ) : jsCeil q = ⌈q⌉ := by
  rw [jsCeil, jsFloor_eq_floor, Int.floor_neg, neg_neg]

/-! ### C7: zone validation -/

/-- C7: calculateDrawingZone returns an error exactly when a page dimension is
not a finite positive number (width 0, NaN, an infinity, or any negative
dimension all fail the validation), and for finite positive dimensions it
always returns a zone string. -/
theorem C7_invalid_dims_iff_error (x y : ℚ) (pw ph : JNum) :
    (∃ e, calculateDrawingZone x y pw ph = Except.error e) ↔
      ¬ ((∃ w, pw = JNum.fin w ∧ 0 < w) ∧ (∃ h, ph = JNum.fin h ∧ 0 < h)) := by
  cases pw <;> cases ph <;>
    simp [calculateDrawingZone, zoneDimsInvalid, JNum.isFinite, JNum.nonpos]
  case fin.fin w h =>
    by_cases hw : w ≤ 0 <;> by_cases hh : h ≤ 0 <;>
      simp [hw, hh, not_le] at *

/-! ### C8: leader offset minimum distance -/

theorem growOffsets_exit (a b : ℚ) :
    ¬ ((growOffsets a b).1 ^ 2 + (growOffsets a b).2 ^ 2 < 25) := by
  rw [growOffsets]
  split
  · exact growOffsets_exit (a + 10) (b + 5)
  · next hc => simpa using hc
termination_by (⌈(5 - a) / 10⌉).toNat
decreasing_by
  rename_i hlt
  have h5 : a < 5 := by nlinarith [sq_nonneg b, sq_nonneg a]
  have hpos : (0 : ℤ) < ⌈(5 - a) / 10⌉ := Int.ceil_pos.mpr (by linarith)
  have hstep : (5 - (a + 10)) / 10 = (5 - a) / 10 - 1 := by ring
  rw [hstep, Int.ceil_sub_one]
  omega

/-- C8: for every input point and every combination of the optional direction
hints, the leader point of computeLeaderOffset is at Euclidean distance at
least 5 from the input (stated on squares: the squared distance is at least
25), and the internal offset-growing loop terminates (growOffsets is a total
function, as its termination proof establishes). -/
theorem C8_leader_distance_ge_five (x y : ℚ) (direction : Option LeaderDirection) :
    25 ≤ ((computeLeaderOffset x y direction).1 - x) ^ 2 +
      ((computeLeaderOffset x y direction).2 - y) ^ 2 := by
  have hexit := growOffsets_exit 30 15
  push_neg at hexit
  unfold computeLeaderOffset
  cases hH : (direction.bind fun d => d.horizontal).getD HorizDir.right <;>
    cases hV : (direction.bind fun d => d.vertical).getD VertDir.down <;>
      simp [hH, hV] <;> ring_nf <;> nlinarith [hexit]

/-! ### C9: balloon diameter step function -/

/-- C9: calculateBalloonSize is the stated step function of the total count,
is non-increasing, and takes the stated boundary values. -/
theorem C9_balloon_size_step_and_monotone :
    (∀ n : ℤ, n ≤ 20 → calculateBalloonSize n = 24) ∧
    (∀ n : ℤ, 20 < n → n ≤ 40 → calculateBalloonSize n = 20) ∧
    (∀ n : ℤ, 40 < n → n ≤ 60 → calculateBalloonSize n = 18) ∧
    (∀ n : ℤ, 60 < n → n ≤ 80 → calculateBalloonSize n = 16) ∧
    (∀ n : ℤ, 80 < n → calculateBalloonSize n = 14) ∧
    (∀ m n : ℤ, m ≤ n → calculateBalloonSize n ≤ calculateBalloonSize m) ∧
    calculateBalloonSize 20 = 24 ∧ calculateBalloonSize 21 = 20 ∧
    calculateBalloonSize 40 = 20 ∧ calculateBalloonSize 41 = 18 ∧
    calculateBalloonSize 80 = 16 ∧ calculateBalloonSize 81 = 14 := by
  refine ⟨?_, ?_, ?_, ?_, ?_, ?_, ?_, ?_, ?_, ?_, ?_, ?_⟩
  · intro n hn; unfold calculateBalloonSize; split_ifs <;> first | rfl | omega
  · intro n h1 h2; unfold calculateBalloonSize; split_ifs <;> first | rfl | omega
  · intro n h1 h2; unfold calculateBalloonSize; split_ifs <;> first | rfl | omega
  · intro n h1 h2; unfold calculateBalloonSize; split_ifs <;> first | rfl | omega
  · intro n h1; unfold calculateBalloonSize; split_ifs <;> first | rfl | omega
  · intro m n hmn; unfold calculateBalloonSize
    split_ifs <;> try norm_num
    all_goals omega
  all_goals unfold calculateBalloonSize
  all_goals norm_num

/-- Witness for C9 at concrete counts. -/
theorem C9_balloon_size_witness :
    calculateBalloonSize 3 = 24 ∧ calculateBalloonSize 50 ≤ calculateBalloonSize 10 :=
  ⟨C9_balloon_size_step_and_monotone.1 3 (by norm_num),
   C9_balloon_size_step_and_monotone.2.2.2.2.2.1 10 50 (by norm_num)⟩

/-! ### Zone lemmas for C5 and C6 -/

theorem calculateDrawingZone_ok (x y w h : ℚ) (hw : 0 < w) (hh : 0 < h) :
    calculateDrawingZone x y (.fin w) (.fin h) =
      .ok (zoneColumnStr (zoneColumnIndex x w) ++ "-" ++ intStr (zoneRowIndex y h + 1)) := by
  have hinv : zoneDimsInvalid (.fin w) (.fin h) = false := by
    simp [zoneDimsInvalid, JNum.isFinite, JNum.nonpos, not_le]
    exact ⟨hw, hh⟩
  unfold calculateDrawingZone
  rw [hinv]
  rfl

theorem zoneColumnIndex_nonneg (x w : ℚ) (hw : 0 < w) (hx : 0 ≤ x) :
    0 ≤ zoneColumnIndex x w := by
  unfold zoneColumnIndex
  rw [jsFloor_eq_floor]
  have : (0 : ℤ) ≤ ⌊x / (w / 8)⌋ := Int.floor_nonneg.mpr (by positivity)
  omega

theorem zoneRowIndex_nonneg (y h : ℚ) (hh : 0 < h) (hy : y ≤ h) :
    0 ≤ zoneRowIndex y h := by
  unfold zoneRowIndex
  rw [jsFloor_eq_floor]
  have : (0 : ℤ) ≤ ⌊(h - y) / (h / 8)⌋ :=
    Int.floor_nonneg.mpr (div_nonneg (by linarith) (by positivity))
  omega

theorem zoneColumnIndex_le_seven (x w : ℚ) : zoneColumnIndex x w ≤ 7 :=
  min_le_right _ _

theorem zoneRowIndex_le_seven (y h : ℚ) : zoneRowIndex y h ≤ 7 :=
  min_le_right _ _

theorem zoneColumnIndex_mono (w : ℚ) (hw : 0 < w) {x x2 : ℚ} (hx : x ≤ x2) :
    zoneColumnIndex x w ≤ zoneColumnIndex x2 w := by
  unfold zoneColumnIndex
  rw [jsFloor_eq_floor, jsFloor_eq_floor]
  have hd : (0 : ℚ) < w / 8 := by positivity
  have := Int.floor_le_floor ((div_le_div_iff_of_pos_right hd).mpr hx)
  omega

theorem zoneRowIndex_antitone (h : ℚ) (hh : 0 < h) {y y2 : ℚ} (hy : y ≤ y2) :
    zoneRowIndex y2 h ≤ zoneRowIndex y h := by
  unfold zoneRowIndex
  rw [jsFloor_eq_floor, jsFloor_eq_floor]
  have hd : (0 : ℚ) < h / 8 := by positivity
  have := Int.floor_le_floor ((div_le_div_iff_of_pos_right hd).mpr (by linarith : h - y2 ≤ h - y))
  omega

theorem zoneString_mem_codes (ci ri : ℤ) (h1 : 0 ≤ ci) (h2 : ci ≤ 7)
    (h3 : 0 ≤ ri) (h4 : ri ≤ 7) :
    zoneColumnStr ci ++ "-" ++ intStr (ri + 1) ∈ zoneCodes := by
  have key : ∀ a : ℕ, a < 8 → ∀ b : ℕ, b < 8 →
      zoneColumnStr (a : ℤ) ++ "-" ++ intStr ((b : ℤ) + 1) ∈ zoneCodes := by
    with_unfolding_all decide
  have ha : ci = ((ci.toNat : ℕ) : ℤ) := by omega
  have hb : ri = ((ri.toNat : ℕ) : ℤ) := by omega
  rw [ha, hb]
  exact key ci.toNat (by omega) ri.toNat (by omega)

/-! ### C5: zone formula -/

/-- C5 counterexample: the claim asserts a two-sided clamp, so a negative x
should give column A; the code only caps the index above, so at x = -10 the
column index is -1, the JS array read is undefined, and the returned code is
the string undefined-7 rather than A-7 (not a valid zone code at all). -/
theorem C5_negative_x_counterexample :
    calculateDrawingZone (-10) 100 (.fin 800) (.fin 600) = .ok "undefined-7" ∧
    "undefined-7" ≠ "A-7" ∧ "undefined-7" ∉ zoneCodes := by
  refine ⟨by with_unfolding_all decide, by decide, by with_unfolding_all decide⟩

/-- C5 (amended): on the domain x ≥ 0 and y ≤ pageHeight (with finite positive
dimensions), the code agrees with the claimed clamped formula: the column is
clamp(floor(x / columnWidth), 0, 7) rendered as its letter and the row is
clamp(floor((pageHeight - y) / rowHeight), 0, 7) + 1.  Outside that domain the
lower clamp does not exist in the code (see the counterexample). -/
theorem C5_clamped_zone_on_domain (x y w h : ℚ) (hw : 0 < w) (hh : 0 < h)
    (hx : 0 ≤ x) (hy : y ≤ h) :
    calculateDrawingZone x y (.fin w) (.fin h) =
      .ok (zoneColumnStr (max 0 (min (jsFloor (x / (w / 8))) 7)) ++ "-" ++
        intStr (max 0 (min (jsFloor ((h - y) / (h / 8))) 7) + 1)) := by
  have hc := zoneColumnIndex_nonneg x w hw hx
  have hr := zoneRowIndex_nonneg y h hh hy
  unfold zoneColumnIndex at hc
  unfold zoneRowIndex at hr
  have h1 : max 0 (min (jsFloor (x / (w / 8))) 7) = min (jsFloor (x / (w / 8))) 7 := by
    omega
  have h2 : max 0 (min (jsFloor ((h - y) / (h / 8))) 7) =
      min (jsFloor ((h - y) / (h / 8))) 7 := by omega
  rw [h1, h2, calculateDrawingZone_ok x y w h hw hh]
  rfl

/-- Witness for C5 at a concrete in-domain point. -/
theorem C5_clamped_zone_witness :
    calculateDrawingZone 50 100 (.fin 800) (.fin 600) =
      .ok (zoneColumnStr (max 0 (min (jsFloor ((50 : ℚ) / (800 / 8))) 7)) ++ "-" ++
        intStr (max 0 (min (jsFloor (((600 : ℚ) - 100) / (600 / 8))) 7) + 1)) :=
  C5_clamped_zone_on_domain 50 100 800 600 (by norm_num) (by norm_num)
    (by norm_num) (by norm_num)

/-! ### C6: zone membership and monotonicity -/

/-- C6: for finite positive dimensions and points inside the page, the zone is
one of the 64 fixed codes; the column index (the position of the letter in the
A-to-H order) never decreases as x increases, and the row index (the displayed
row number minus one) never increases as y increases. -/
theorem C6_zone_membership_and_monotone (w h x y x2 y2 : ℚ)
    (hw : 0 < w) (hh : 0 < h)
    (hx0 : 0 ≤ x) (hxw : x ≤ w) (hy0 : 0 ≤ y) (hyh : y ≤ h)
    (hx20 : 0 ≤ x2) (hx2w : x2 ≤ w) (hy20 : 0 ≤ y2) (hy2h : y2 ≤ h)
    (hxx : x ≤ x2) (hyy : y ≤ y2) :
    (∃ s, calculateDrawingZone x y (.fin w) (.fin h) = .ok s ∧ s ∈ zoneCodes) ∧
    zoneColumnIndex x w ≤ zoneColumnIndex x2 w ∧
    zoneRowIndex y2 h ≤ zoneRowIndex y h := by
  refine ⟨⟨zoneColumnStr (zoneColumnIndex x w) ++ "-" ++ intStr (zoneRowIndex y h + 1),
    calculateDrawingZone_ok x y w h hw hh, ?_⟩,
    zoneColumnIndex_mono w hw hxx, zoneRowIndex_antitone h hh hyy⟩
  exact zoneString_mem_codes _ _ (zoneColumnIndex_nonneg x w hw hx0)
    (zoneColumnIndex_le_seven x w) (zoneRowIndex_nonneg y h hh hyh)
    (zoneRowIndex_le_seven y h)

/-- Witness for C6 at concrete in-domain points. -/
theorem C6_zone_witness :
    (∃ s, calculateDrawingZone 100 50 (.fin 800) (.fin 600) = .ok s ∧ s ∈ zoneCodes) ∧
    zoneColumnIndex 100 800 ≤ zoneColumnIndex 700 800 ∧
    zoneRowIndex 500 600 ≤ zoneRowIndex 50 600 :=
  C6_zone_membership_and_monotone 800 600 100 50 700 500 (by norm_num) (by norm_num)
    (by norm_num) (by norm_num) (by norm_num) (by norm_num) (by norm_num)
    (by norm_num) (by norm_num) (by norm_num) (by norm_num) (by norm_num)

/-! ### C3 and C4: the substring confidence bug -/

/-- C3: at the failing input, the query 10.5 is a substring of the cleaned
item 10.5 ±0.1 (cleaned lengths 4 and 9); the claim and the spec say the
confidence is shorter over longer, 4/9, but the source takes Math.max of the
two ratios and assigns 9/4. -/
theorem C3_substring_confidence_eval :
    findTextPosition "10.5" [⟨1, 600, 400, [⟨"10.5 ±0.1", 100, 200, 40, 10⟩]⟩] 0.6 =
      some ⟨"10.5 ±0.1", 0, 100, 200, 40, 10, .fin (9 / 4)⟩ ∧
    (9 / 4 : ℚ) ≠ 4 / 9 := by
  constructor
  · with_unfolding_all decide
  · norm_num

/-- C4: a returned match can carry a confidence strictly above 1, violating
the documented range: for the query ab against the single item abcd at
minimum confidence 0.5, the source returns confidence max(2/4, 4/2) = 2. -/
theorem C4_confidence_above_one_eval :
    findTextPosition "ab" [⟨1, 600, 400, [⟨"abcd", 100, 200, 40, 10⟩]⟩] 0.5 =
      some ⟨"abcd", 0, 100, 200, 40, 10, .fin 2⟩ ∧
    ¬ ((2 : ℚ) ≤ 1) := by
  constructor
  · with_unfolding_all decide
  · norm_num

/-! ### C10: dimension candidate order -/

/-- C10 counterexample: with a zero nominal value the source skips every
nominal-based pattern and only tries the description, returning no match,
while the claimed unconditional candidate list would find the tolerance
pattern 0 ±0.1 exactly (confidence 1). -/
theorem C10_zero_nominal_counterexample :
    findDimensionPosition "zzz" (some 0) (some (1 / 10)) (some (1 / 10)) none c10pages =
      none ∧
    findDimensionPositionClaimed "zzz" 0 (1 / 10) (1 / 10) c10pages =
      some ⟨"0 ±0.1", 0, 100, 200, 40, 10, .fin 1⟩ := by
  constructor
  · with_unfolding_all decide
  · with_unfolding_all decide

/-- C10 (amended): when the nominal value is present and nonzero and both
tolerances are present and nonzero (the JS truthiness guards of the source),
findDimensionPosition is the first success of findTextPosition at threshold
0.6 over the five candidates in the claimed order: nominal space plus-minus
tolerance, nominal plus-minus tolerance, nominal plus tolerance minus
tolerance, the bare nominal, then the raw description.  With fewer truthy
fields the source drops the corresponding patterns. -/
theorem C10_first_success_order (description : String) (n tp tm : ℚ)
    (unit : Option String) (pdfPages : List PDFPageInfo)
    (hn : n ≠ 0) (htp : tp ≠ 0) (htm : tm ≠ 0) :
    findDimensionPosition description (some n) (some tp) (some tm) unit pdfPages =
      (match findTextPosition (numToString n ++ " ±" ++ numToString tp) pdfPages 0.6 with
       | some m => some m
       | none =>
         match findTextPosition (numToString n ++ "±" ++ numToString tp) pdfPages 0.6 with
         | some m => some m
         | none =>
           match findTextPosition
               (numToString n ++ " +" ++ numToString tp ++ " -" ++ numToString tm)
               pdfPages 0.6 with
           | some m => some m
           | none =>
             match findTextPosition (numToString n) pdfPages 0.6 with
             | some m => some m
             | none => findTextPosition description pdfPages 0.6) := by
  simp only [findDimensionPosition]
  rw [if_pos hn, if_pos (show tp ≠ 0 ∧ tm ≠ 0 from ⟨htp, htm⟩)]
  simp only [List.cons_append, List.nil_append, List.findSome?_cons]
  cases findTextPosition (numToString n ++ " ±" ++ numToString tp) pdfPages 0.6 <;>
    cases findTextPosition (numToString n ++ "±" ++ numToString tp) pdfPages 0.6 <;>
    cases findTextPosition
      (numToString n ++ " +" ++ numToString tp ++ " -" ++ numToString tm) pdfPages 0.6 <;>
    cases findTextPosition (numToString n) pdfPages 0.6 <;>
    simp [List.findSome?]
  cases findTextPosition description pdfPages 0.6 <;> rfl

/-- Witness for C10 with truthy nominal and tolerances. -/
theorem C10_first_success_witness :
    findDimensionPosition "10.5 ±0.1 dia" (some (21 / 2)) (some (1 / 10)) (some (1 / 10))
      (some "mm") c10pages =
      (match findTextPosition (numToString (21 / 2) ++ " ±" ++ numToString (1 / 10))
          c10pages 0.6 with
       | some m => some m
       | none =>
         match findTextPosition (numToString (21 / 2) ++ "±" ++ numToString (1 / 10))
             c10pages 0.6 with
         | some m => some m
         | none =>
           match findTextPosition (numToString (21 / 2) ++ " +" ++ numToString (1 / 10) ++
               " -" ++ numToString (1 / 10)) c10pages 0.6 with
           | some m => some m
           | none =>
             match findTextPosition (numToString (21 / 2)) c10pages 0.6 with
             | some m => some m
             | none => findTextPosition "10.5 ±0.1 dia" c10pages 0.6) :=
  C10_first_success_order "10.5 ±0.1 dia" (21 / 2) (1 / 10) (1 / 10) (some "mm") c10pages
    (by norm_num) (by norm_num) (by norm_num)

/-! ### C2: persistence failure mutates nothing -/

/-- C2: when the batch insert of the pending annotation records is attempted
(the record list is nonempty) and fails, the phase result has success false
and the characteristics come back exactly as they went in: no location is
written on this path. -/
theorem C2_insert_failure_leaves_characteristics (drawingId : String)
    (characteristics : List ExtractedCharacteristic) (pdfPages : List PDFPageInfo)
    (dbInsert : List AnnotationRecord → Except String Unit)
    (pdfStep : Except String String) (e : String)
    (hne : buildAnnotationRecords drawingId (acceptedMatches characteristics pdfPages) ≠ [])
    (hfail : dbInsert (buildAnnotationRecords drawingId
      (acceptedMatches characteristics pdfPages)) = .error e) :
    (generateAnnotations drawingId characteristics pdfPages dbInsert pdfStep).1.success =
      false ∧
    (generateAnnotations drawingId characteristics pdfPages dbInsert pdfStep).2 =
      characteristics := by
  have hlen : 0 < (buildAnnotationRecords drawingId
      (acceptedMatches characteristics pdfPages)).length :=
    List.length_pos.mpr hne
  simp only [generateAnnotations]
  rw [if_pos hlen, hfail]
  exact ⟨rfl, rfl⟩

/-- Witness for C2: one note characteristic with an exact match, a failing
insert; the result fails and the characteristic keeps no location. -/
theorem C2_insert_failure_witness :
    (generateAnnotations "d1" c2chars c2pages (fun _ => .error "boom") (.ok "u")).1.success =
      false ∧
    (generateAnnotations "d1" c2chars c2pages (fun _ => .error "boom") (.ok "u")).2 =
      c2chars :=
  C2_insert_failure_leaves_characteristics "d1" c2chars c2pages
    (fun _ => .error "boom") (.ok "u") "boom" (by with_unfolding_all decide) rfl

/-! ### C1: collision safety of the placer -/

theorem calculateBalloonSize_nonneg (n : ℤ) : 0 ≤ calculateBalloonSize n := by
  unfold calculateBalloonSize
  split_ifs <;> norm_num

theorem isBlankSpace_no_overlap (d pw ph : ℚ) (bounds : DrawingBounds)
    (existing : List PlacedBalloon) (items : List TextBox) (x y : ℚ)
    (hblank : isBlankSpace d pw ph bounds existing items x y = true)
    (b : PlacedBalloon) (hb : b ∈ existing)
    (hd : 0 ≤ d) (hbd : 0 ≤ b.balloonDiameter) :
    ¬ circlesOverlap x y (d / 2) b.xPosition b.yPosition (b.balloonDiameter / 2) := by
  simp only [isBlankSpace] at hblank
  split_ifs at hblank with hb1 hb2 hb3 hb4
  have hnot : ¬ (hypotLt (x - b.xPosition) (y - b.yPosition)
      (d / 2 + b.balloonDiameter / 2 + 5) = true) := by
    intro hcontra
    exact hb3 (List.any_eq_true.mpr ⟨b, hb, hcontra⟩)
  simp only [hypotLt, Bool.and_eq_true, decide_eq_true_eq, not_and, not_lt] at hnot
  have hm : (0 : ℚ) < d / 2 + b.balloonDiameter / 2 + 5 := by linarith
  have hge := hnot hm
  unfold circlesOverlap
  push_neg
  nlinarith [hge, hm]

theorem perturbCandidate_pass (pass : ℚ → ℚ → Bool) (d : ℚ) (c : Candidate)
    (pl : Placement) (h : perturbCandidate pass d c = some pl) :
    pass pl.xPosition pl.yPosition = true ∧ pl.balloonDiameter = d := by
  unfold perturbCandidate at h
  obtain ⟨o, ho, hf⟩ := List.exists_of_findSome?_eq_some h
  split_ifs at hf with h1 h2
  · cases hf; exact ⟨h1, rfl⟩
  · cases hf; exact ⟨h2, rfl⟩

/-- C1 (amended): with nonnegative diameters on the already-placed balloons,
the position returned by computeSmartBalloonPlacement never overlaps any of
them whenever it comes from the candidate search or the perturbation search
(both gated by isBlankSpace); otherwise the result is exactly the perimeter
fallback layout, which ignores the placed balloons and carries no such
guarantee (see the counterexample). -/
theorem C1_no_overlap_unless_perimeter (textPosition : Option TextBox)
    (balloonNumber : ℤ) (pageWidth pageHeight : ℚ)
    (existingBalloons : List PlacedBalloon) (totalCharacteristics : ℤ)
    (allTextItems : List TextBox) (drawingOrigin : ℚ × ℚ)
    (hd : ∀ b ∈ existingBalloons, 0 ≤ b.balloonDiameter) :
    (∀ b ∈ existingBalloons,
      ¬ circlesOverlap
          (computeSmartBalloonPlacement textPosition balloonNumber pageWidth pageHeight
            existingBalloons totalCharacteristics allTextItems drawingOrigin).xPosition
          (computeSmartBalloonPlacement textPosition balloonNumber pageWidth pageHeight
            existingBalloons totalCharacteristics allTextItems drawingOrigin).yPosition
          ((computeSmartBalloonPlacement textPosition balloonNumber pageWidth pageHeight
            existingBalloons totalCharacteristics allTextItems drawingOrigin).balloonDiameter
              / 2)
          b.xPosition b.yPosition (b.balloonDiameter / 2)) ∨
    computeSmartBalloonPlacement textPosition balloonNumber pageWidth pageHeight
        existingBalloons totalCharacteristics allTextItems drawingOrigin =
      ⟨(computePerimeterBalloonLayout balloonNumber totalCharacteristics pageWidth
          pageHeight).xPosition,
       (computePerimeterBalloonLayout balloonNumber totalCharacteristics pageWidth
          pageHeight).yPosition,
       (computePerimeterBalloonLayout balloonNumber totalCharacteristics pageWidth
          pageHeight).side,
       calculateBalloonSize totalCharacteristics⟩ := by
  cases textPosition with
  | none => right; rfl
  | some tp =>
    unfold computeSmartBalloonPlacement
    dsimp only
    split
    · next c heq =>
      left
      intro b hb
      have hpass := List.find?_some heq
      simp only [candidatePasses, Bool.and_eq_true] at hpass
      exact isBlankSpace_no_overlap _ _ _ _ _ _ _ _ hpass.1 b hb
        (calculateBalloonSize_nonneg _) (hd b hb)
    · split
      · next pl heq2 =>
        left
        intro b hb
        obtain ⟨c, hc, hcp⟩ := List.exists_of_findSome?_eq_some heq2
        obtain ⟨hpassed, hdiam⟩ := perturbCandidate_pass _ _ _ _ hcp
        simp only [candidatePasses, Bool.and_eq_true] at hpassed
        have := isBlankSpace_no_overlap _ _ _ _ _ _ _ _ hpassed.1 b hb
          (calculateBalloonSize_nonneg totalCharacteristics) (hd b hb)
        rwa [hdiam]
      · right; rfl

/-- C1 counterexample: with a synthetic set of 50 pre-placed balloons whose
first member sits at the perimeter slot of balloon number 1 and no target
position, the placer falls through to the perimeter layout and returns that
very slot, overlapping the placed balloon completely (center distance 0
against a radius sum of 18). -/
theorem C1_perimeter_overlap_counterexample :
    c1placedBalloons.length = 50 ∧
    (⟨40, 120, 18⟩ : PlacedBalloon) ∈ c1placedBalloons ∧
    computeSmartBalloonPlacement none 1 600 1075 c1placedBalloons 51 [] (0, 0) =
      ⟨40, 120, .left, 18⟩ ∧
    circlesOverlap 40 120 (18 / 2) 40 120 (18 / 2) := by
  refine ⟨by with_unfolding_all decide, List.mem_cons_self _ _,
    by with_unfolding_all decide, ?_⟩
  unfold circlesOverlap
  norm_num

/-- Witness for C1 at a concrete target with one distant placed balloon. -/
theorem C1_no_overlap_witness :
    (∀ b ∈ [(⟨500, 500, 24⟩ : PlacedBalloon)],
      ¬ circlesOverlap
          (computeSmartBalloonPlacement (some ⟨300, 300, 40, 10⟩) 1 800 900
            [⟨500, 500, 24⟩] 10 [] (0, 0)).xPosition
          (computeSmartBalloonPlacement (some ⟨300, 300, 40, 10⟩) 1 800 900
            [⟨500, 500, 24⟩] 10 [] (0, 0)).yPosition
          ((computeSmartBalloonPlacement (some ⟨300, 300, 40, 10⟩) 1 800 900
            [⟨500, 500, 24⟩] 10 [] (0, 0)).balloonDiameter / 2)
          b.xPosition b.yPosition (b.balloonDiameter / 2)) ∨
    computeSmartBalloonPlacement (some ⟨300, 300, 40, 10⟩) 1 800 900
        [⟨500, 500, 24⟩] 10 [] (0, 0) =
      ⟨(computePerimeterBalloonLayout 1 10 800 900).xPosition,
       (computePerimeterBalloonLayout 1 10 800 900).yPosition,
       (computePerimeterBalloonLayout 1 10 800 900).side,
       calculateBalloonSize 10⟩ :=
  C1_no_overlap_unless_perimeter (some ⟨300, 300, 40, 10⟩) 1 800 900
    [⟨500, 500, 24⟩] 10 [] (0, 0)
    (by intro b hb; simp at hb; rw [hb]; norm_num)

end FAI
